import Mathlib

/-!
Verification of the sitemap latency tester (`src/main.py`, class `SitemapTester`).

The program fetches an XML sitemap, extracts page URLs, probes each one with a
timed HTTP GET under a thread pool of `max_workers` workers, and aggregates
latency statistics into a console summary and a text report file.

The network, the server and the clock are modelled as oracles: a probe's GET is
an oracle answer `NetOutcome` (transport-level completion with a status code and
the two `time.time()` readings, a timeout exception, or another exception).
All pure computation (`test_single_url`'s result construction, `parse_sitemap`'s
XML extraction, `run_test`'s control flow, `generate_report`'s statistics) is
translated directly from the Python source.  Python floats are modelled as `ℚ`.
-/

namespace SitemapTester

/-- Oracle answer for one `self.session.get(url, timeout=...)` call inside
`test_single_url` (src/main.py lines 58-88):
* `ok status start_t end_t` — the GET completed at the transport level with
  HTTP status `status`; `start_t`, `end_t` are the `time.time()` readings taken
  just before and just after the call (any status, 2xx-5xx, lands here;
  `requests.get` does not raise on 4xx/5xx);
* `timeout` — the call raised `requests.exceptions.Timeout`;
* `err msg` — the call raised any other exception, whose `str(e)` is `msg`. -/
inductive NetOutcome where
  | ok (status : Nat) (start_t end_t : ℚ)
  | timeout
  | err (msg : String)
deriving DecidableEq, Repr

/-- The per-URL result dict built by `test_single_url` (src/main.py lines 65-88):
keys `url`, `response_time`, `status_code`, `success`, `error`. -/
structure TestResult where
  url : String
  response_time : Option ℚ
  status_code : Option Nat
  success : Bool
  error : Option String
deriving DecidableEq, Repr

/-- The literal message stored under `error` in the `requests.exceptions.Timeout`
branch of `test_single_url` (src/main.py line 79): Chinese for
"request timed out". -/
def timeoutMsg : String := "请求超时"

/-- `SitemapTester.test_single_url` (src/main.py lines 56-90), with the GET call
replaced by the oracle `net`.  The Python function has a `try/except` covering
every path and always returns a result dict, so the embedding is a total
function into `TestResult`.  On transport completion the latency is
`(end_time - start_time) * 1000` milliseconds (line 63). -/
def test_single_url (net : String → NetOutcome) (url : String) : TestResult :=
  match net url with
  | .ok status start_t end_t =>
      { url := url
        response_time := some ((end_t - start_t) * 1000)
        status_code := some status
        success := true
        error := none }
  | .timeout =>
      { url := url
        response_time := none
        status_code := none
        success := false
        error := some timeoutMsg }
  | .err msg =>
      { url := url
        response_time := none
        status_code := none
        success := false
        error := some msg }

/-- An XML element as `xml.etree.ElementTree` presents it to `parse_sitemap`:
a (namespace-qualified) tag, the element's leading text (`Element.text`, `none`
when the element has no text node), and its direct children in document order. -/
structure XmlElem where
  tag : String
  text : Option String
  children : List XmlElem

/-- The sitemap namespace used at src/main.py line 41, as ElementTree qualifies
tags: `{http://www.sitemaps.org/schemas/sitemap/0.9}`. -/
def sitemapNS : String := "{http://www.sitemaps.org/schemas/sitemap/0.9}"

/-- Qualified tag of a `<url>` element under the sitemap namespace. -/
def urlTag : String := sitemapNS ++ "url"

/-- Qualified tag of a `<loc>` element under the sitemap namespace. -/
def locTag : String := sitemapNS ++ "loc"

/-- `Element.find(path, namespace)` for a single-tag path: the first direct
child with the given qualified tag, or `none` (ElementTree's `find` returns
`None` when no child matches, which line 46 tests with `is not None`). -/
def findChild (e : XmlElem) (t : String) : Option XmlElem :=
  e.children.find? (fun c => c.tag = t)

/-- `Element.findall('ns:url', namespace)` on the document root (src/main.py
line 44): every direct child tagged `{ns}url`, in document order. -/
def findUrlElems (root : XmlElem) : List XmlElem :=
  root.children.filter (fun c => c.tag = urlTag)

/-- The URL-extraction loop of `parse_sitemap` (src/main.py lines 43-47): for
each `<url>` child of the root in document order, look up its first `<loc>`
child; if present append `loc.text`, otherwise skip the `<url>` element.
ElementTree's `.text` can be `None` (empty `<loc/>`), which Python would append
as-is, so the produced list holds `Option String` values. -/
def extract_urls (root : XmlElem) : List (Option String) :=
  (findUrlElems root).filterMap (fun c => (findChild c locTag).map XmlElem.text)

/-- Oracle answer for the sitemap GET + XML parse inside `parse_sitemap`
(src/main.py lines 34-38):
* `ok root` — the GET returned a 2xx body that parsed as XML with root `root`;
* `netErr msg` — `session.get` raised (network failure / timeout);
* `badStatus code` — non-2xx response, so `raise_for_status()` raised;
* `parseErr msg` — `ET.fromstring` raised (malformed XML). -/
inductive FetchOutcome where
  | ok (root : XmlElem)
  | netErr (msg : String)
  | badStatus (code : Nat)
  | parseErr (msg : String)

/-- `SitemapTester.parse_sitemap` (src/main.py lines 30-54): on a successful
fetch and parse it returns the extracted URL list; the `except Exception`
handler (lines 52-54) catches every failure — transport error, non-2xx status,
malformed XML — prints the error and returns the empty list. -/
def parse_sitemap (fo : FetchOutcome) : List (Option String) :=
  match fo with
  | .ok root => extract_urls root
  | .netErr _ => []
  | .badStatus _ => []
  | .parseErr _ => []

/-- `successful_tests` (src/main.py line 146): the results with `success` true,
in received order. -/
def successful_tests (results : List TestResult) : List TestResult :=
  results.filter (fun r => r.success)

/-- `failed_tests` (src/main.py line 147): the results with `success` false,
in received order. -/
def failed_tests (results : List TestResult) : List TestResult :=
  results.filter (fun r => !r.success)

/-- `response_times` (src/main.py line 157): the latencies of the successful
results.  Python reads `r['response_time']` directly; for every result built by
`test_single_url`, `success = True` implies the latency is present, so the
extraction is a `filterMap` over the present values. -/
def response_times (results : List TestResult) : List ℚ :=
  (successful_tests results).filterMap TestResult.response_time

/-- Python `min` over a nonempty list (src/main.py line 160); 0 on `[]`, a case
the source never reaches because the statistics block is guarded by
`if successful_tests:`. -/
def listMin : List ℚ → ℚ
  | [] => 0
  | x :: xs => xs.foldl min x

/-- Python `max` over a nonempty list (src/main.py line 161); 0 on `[]`. -/
def listMax : List ℚ → ℚ
  | [] => 0
  | x :: xs => xs.foldl max x

/-- `statistics.mean` (src/main.py line 162): arithmetic mean. -/
def mean (l : List ℚ) : ℚ := l.sum / l.length

/-- Insert into a sorted list, keeping order: one step of the sort underlying
our model of Python `sorted`. -/
def insertSorted (x : ℚ) : List ℚ → List ℚ
  | [] => [x]
  | y :: ys => if x ≤ y then x :: y :: ys else y :: insertSorted x ys

/-- Model of Python `sorted` on rationals (insertion sort; any correct sort
produces the same list on a totally ordered carrier). -/
def sortList (l : List ℚ) : List ℚ := l.foldr insertSorted []

/-- `statistics.median` (src/main.py line 163): sort, take the middle element
for odd length, the average of the two middle elements for even length. -/
def median (l : List ℚ) : ℚ :=
  let s := sortList l
  let n := s.length
  if n % 2 = 1 then s.getD (n / 2) 0
  else (s.getD (n / 2 - 1) 0 + s.getD (n / 2) 0) / 2

/-- `fast` (src/main.py line 166): latencies strictly below 500 ms. -/
def fast (ts : List ℚ) : Nat := ts.countP (fun t => decide (t < 500))

/-- `medium` (src/main.py line 167): latencies with `500 <= t < 2000`. -/
def medium (ts : List ℚ) : Nat := ts.countP (fun t => decide (500 ≤ t ∧ t < 2000))

/-- `slow` (src/main.py line 168): latencies with `t >= 2000`. -/
def slow (ts : List ℚ) : Nat := ts.countP (fun t => decide (2000 ≤ t))

/-- The latency statistics block printed at src/main.py lines 159-163. -/
structure LatencyStats where
  minMs : ℚ
  maxMs : ℚ
  meanMs : ℚ
  medianMs : ℚ
deriving DecidableEq, Repr

/-- The three-bucket distribution block printed at src/main.py lines 170-173:
each bucket's count and its percentage of `len(successful_tests)`. -/
structure Distribution where
  fast : Nat
  medium : Nat
  slow : Nat
  fastPct : ℚ
  mediumPct : ℚ
  slowPct : ℚ
deriving DecidableEq, Repr

/-- The observable content of `generate_report` (src/main.py lines 140-196):
the summary counts, the statistics and distribution blocks (present only when
there is at least one successful result, lines 156 and 175), the failure list
in received order, and whether the report file was opened and written
(lines 180-196). -/
structure Report where
  total : Nat
  successful : Nat
  failed : Nat
  stats : Option LatencyStats
  dist : Option Distribution
  failures : List (String × Option String)
  file_written : Bool
deriving DecidableEq, Repr

/-- `SitemapTester.generate_report` (src/main.py lines 140-196).  The guard at
lines 142-144 returns early when `self.results` is empty, printing
"没有测试结果可报告" ("no test results to report") and writing no file: that
path is `none`.  Otherwise the full report is produced and the file is always
written (the `with open(...)` block at lines 184-194 is unconditional). -/
def generate_report (results : List TestResult) : Option Report :=
  if results.isEmpty then none
  else
    let succ := successful_tests results
    let ts := response_times results
    some
      { total := results.length
        successful := succ.length
        failed := (failed_tests results).length
        stats :=
          if succ.isEmpty then none
          else some
            { minMs := listMin ts
              maxMs := listMax ts
              meanMs := mean ts
              medianMs := median ts }
        dist :=
          if succ.isEmpty then none
          else some
            { fast := fast ts
              medium := medium ts
              slow := slow ts
              fastPct := (fast ts : ℚ) / succ.length * 100
              mediumPct := (medium ts : ℚ) / succ.length * 100
              slowPct := (slow ts : ℚ) / succ.length * 100 }
        failures := (failed_tests results).map (fun r => (r.url, r.error))
        file_written := true }

/-- `run_collect` models the result-collection loop of `run_test`
(src/main.py lines 110-132) for a submitted URL list: every URL is submitted to
the pool exactly once (the dict comprehension at line 112 creates one distinct
future per list entry, duplicates included), `as_completed` yields each future
exactly once, and each yielded result is appended to `self.results` once
(`test_single_url` never raises, so `future.result()` never raises and the
append always runs).  `comp` is the order in which `as_completed` yields the
submitted URLs' futures; theorems constrain it to a permutation of the input. -/
def run_collect (net : String → NetOutcome) (comp : List String) : List TestResult :=
  comp.map (test_single_url net)

/-- The observable effects of one `run_test` call (src/main.py lines 92-138):
the parsed URL list, how many probes were submitted and executed, the collected
results in completion order, and the report handed to `generate_report`. -/
structure RunEffects where
  urls : List (Option String)
  probes_run : Nat
  results : List TestResult
  report : Option Report
deriving DecidableEq, Repr

/-- `SitemapTester.run_test` (src/main.py lines 92-138): parse the sitemap;
if the URL list is empty, print "没有找到可测试的URL" and return before
creating the pool — no probe is submitted and `generate_report` is never
called, so no report file is written (modelled as `report := none`).
Otherwise submit one probe per URL (line 112), collect the results in
`as_completed` order `comp`, and call `generate_report` on them (line 138).
`probe` is the per-URL probe as an oracle over the parsed values (which are
`Option String`, since a `<loc>` element's text may be absent). -/
def run_test (fo : FetchOutcome) (probe : Option String → TestResult)
    (comp : List (Option String)) : RunEffects :=
  let urls := parse_sitemap fo
  if urls.isEmpty then
    { urls := urls, probes_run := 0, results := [], report := none }
  else
    let results := comp.map probe
    { urls := urls
      probes_run := urls.length
      results := results
      report := generate_report results }

/-!
Timing model of `run_test` with `max_workers = 1` (src/main.py lines 110-129).

`ThreadPoolExecutor(max_workers=1)` receives all submissions up front
(line 112) and executes them FIFO on a single worker thread; the worker starts
each task as soon as the previous one finishes, with no delay of its own.  The
`time.sleep(1)` at line 129 runs on the *main* thread, inside the
`as_completed` consumption loop, after a result has been consumed; it blocks
only the main thread (sleep and network I/O release the GIL), never the
worker.  `ds` is the list of probe durations in submission order; time starts
at 0 when the first probe is submitted.
-/

/-- The instant the single worker starts probe `i`: the durations of the
earlier probes, summed — the worker begins each GET immediately after the
previous one returns. -/
def probeStart (ds : List ℚ) (i : Nat) : ℚ := (ds.take i).sum

/-- The instant probe `i` completes on the single worker. -/
def probeEnd (ds : List ℚ) (i : Nat) : ℚ := (ds.take (i + 1)).sum

/-- The instant the main thread finishes its consumption loop: it consumes each
completed result no earlier than the result's completion and no earlier than
its own previous sleep ended, then sleeps 1 second (src/main.py line 129). -/
def mainFinish (ds : List ℚ) : ℚ :=
  ((List.range ds.length).map (probeEnd ds)).foldl (fun free e => max free e + 1) 0

/-- Helper: `test_single_url` always records the probed URL in the result,
whatever the network oracle answers. -/
theorem test_single_url_url (net : String → NetOutcome) (url : String) :
    (test_single_url net url).url = url := by
  cases h : net url <;> simp [test_single_url, h]

/-- Helper: a `filterMap` whose function answers `some` on every member of the
list is a `map`. -/
theorem filterMap_eq_map_of_all_some {α β : Type} (g : α → Option β) (f : α → β)
    (l : List α) (H : ∀ a ∈ l, g a = some (f a)) : l.filterMap g = l.map f := by
  induction l with
  | nil => rfl
  | cons x xs ih =>
      rw [List.filterMap_cons, List.map_cons, H x (List.mem_cons_self x xs),
        ih (fun a ha => H a (List.mem_cons_of_mem x ha))]

/-- Helper: the three latency buckets of `generate_report` partition any
latency list, so their counts sum to its length. -/
theorem bucket_counts_sum (ts : List ℚ) : fast ts + medium ts + slow ts = ts.length := by
  induction ts with
  | nil => rfl
  | cons t ts ih =>
      simp only [fast, medium, slow, Bool.decide_and] at ih
      simp only [fast, medium, slow, List.countP_cons, List.length_cons, Bool.decide_and]
      by_cases h1 : t < 500
      · have h2 : ¬ (500 : ℚ) ≤ t := not_le.mpr h1
        have h3 : ¬ (2000 : ℚ) ≤ t := not_le.mpr (h1.trans (by norm_num))
        simp [h1, h2, h3]
        omega
      · by_cases h2 : t < 2000
        · have h4 : (500 : ℚ) ≤ t := not_lt.mp h1
          have h5 : ¬ (2000 : ℚ) ≤ t := not_le.mpr h2
          simp [h1, h2, h4, h5]
          omega
        · have h6 : (2000 : ℚ) ≤ t := not_lt.mp h2
          simp [h1, h2, h6]
          omega

/-- Helper: when every successful result carries a latency (true of every
result `test_single_url` builds), the latency list is exactly one entry per
successful result. -/
theorem response_times_length (results : List TestResult)
    (h : ∀ r ∈ results, r.success = true → r.response_time.isSome) :
    (response_times results).length = (successful_tests results).length := by
  unfold response_times
  rw [filterMap_eq_map_of_all_some TestResult.response_time
    (fun r => r.response_time.getD 0)]
  · rw [List.length_map]
  · intro r hr
    have hmem := List.mem_filter.mp hr
    have hsome := h r hmem.1 hmem.2
    cases hrt : r.response_time with
    | none => rw [hrt] at hsome; exact absurd hsome (by simp)
    | some v => simp [hrt]

/-- C1: absent cancellation, running the scheduler over a finite URL list
yields exactly one `ProbeResult` per input URL — the result count equals the
submitted count, the collected results' URLs are a permutation of the input,
and every URL appears among the results exactly as often as it was submitted.
`comp` is the `as_completed` completion order, which yields each submitted
future exactly once (hypothesis `comp.Perm urls`). -/
theorem run_collect_one_result_per_url (net : String → NetOutcome)
    (urls comp : List String) (h : comp.Perm urls) :
    (run_collect net comp).length = urls.length ∧
    ((run_collect net comp).map TestResult.url).Perm urls ∧
    ∀ u : String, ((run_collect net comp).map TestResult.url).count u = urls.count u := by
  have hmap : (run_collect net comp).map TestResult.url = comp := by
    unfold run_collect
    rw [List.map_map]
    have hco : TestResult.url ∘ test_single_url net = id := by
      funext u
      exact test_single_url_url net u
    rw [hco, List.map_id]
  refine ⟨?_, ?_, ?_⟩
  · unfold run_collect
    rw [List.length_map]
    exact h.length_eq
  · rw [hmap]
    exact h
  · intro u
    rw [hmap]
    exact h.count_eq u

/-- Witness for C1 at a concrete input: two URLs completing in reversed
order. -/
theorem run_collect_one_result_per_url_witness :
    (run_collect (fun _ => NetOutcome.timeout) ["b", "a"]).length =
      (["a", "b"] : List String).length ∧
    ((run_collect (fun _ => NetOutcome.timeout) ["b", "a"]).map TestResult.url).Perm
      ["a", "b"] ∧
    ∀ u : String,
      ((run_collect (fun _ => NetOutcome.timeout) ["b", "a"]).map TestResult.url).count u =
        (["a", "b"] : List String).count u :=
  run_collect_one_result_per_url (fun _ => NetOutcome.timeout) ["a", "b"] ["b", "a"]
    (List.Perm.swap "a" "b" [])

/-- C2: evaluation of the concurrency-1 timing model at the concrete input of
two probes of durations 2 s and 3 s.  The single worker starts the second GET
at the very instant the first completes (gap 0, not the claimed 1-second gap):
the `time.sleep(1)` at src/main.py line 129 runs on the main thread after a
result is consumed and never delays the worker.  The main loop itself finishes
at 6 s, so the measured total run time does satisfy the `≥ N − 1` bound. -/
theorem pacing_gap_is_zero :
    probeStart [2, 3] 1 = probeEnd [2, 3] 0 ∧
    ¬ probeEnd [2, 3] 0 + 1 ≤ probeStart [2, 3] 1 ∧
    mainFinish [2, 3] = 6 := by
  refine ⟨by norm_num [probeStart, probeEnd], by norm_num [probeStart, probeEnd], ?_⟩
  show (((List.range 2).map (probeEnd [2, 3])).foldl (fun free e => max free e + 1) 0) = 6
  rw [List.range_succ, List.range_succ, List.range_zero]
  norm_num [probeEnd, max_def]

/-- C8: `generate_report` on an empty result list takes the guard at
src/main.py lines 142-144: it prints "没有测试结果可报告" ("no test results to
report") and returns before the file-writing block, so no report is produced
and no report file is created (`none` in the model). -/
theorem generate_report_empty : generate_report [] = none := rfl

/-- The all-success result set of C3: latencies 100, 300, 700, 1500, 3000 ms. -/
def sampleResults : List TestResult :=
  ([100, 300, 700, 1500, 3000] : List ℚ).map
    (fun t => { url := "u", response_time := some t, status_code := some 200,
                success := true, error := none })

/-- C3 counterexample: on the latencies 100, 300, 700, 1500, 3000 ms the report
does NOT carry the claimed distribution `<500ms: 1 (20%)`, `500-2000ms: 3
(60%)`, `≥2000ms: 1 (20%)` — both 100 and 300 are below 500 ms, so the
`<500ms` bucket holds 2 entries, not 1. -/
theorem generate_report_sample_dist_counterexample :
    generate_report sampleResults ≠
      some
        { total := 5, successful := 5, failed := 0
          stats := some { minMs := 100, maxMs := 3000, meanMs := 1120, medianMs := 700 }
          dist := some { fast := 1, medium := 3, slow := 1,
                         fastPct := 20, mediumPct := 60, slowPct := 20 }
          failures := [], file_written := true } := by
  intro heq
  have : (1 : Nat) = 2 := by
    have h2 : generate_report sampleResults =
        some
          { total := 5, successful := 5, failed := 0
            stats := some { minMs := 100, maxMs := 3000, meanMs := 1120, medianMs := 700 }
            dist := some { fast := 2, medium := 2, slow := 1,
                           fastPct := 40, mediumPct := 40, slowPct := 20 }
            failures := [], file_written := true } := by
      norm_num [sampleResults, generate_report, successful_tests, failed_tests,
        response_times, listMin, listMax, mean, median, sortList, insertSorted,
        fast, medium, slow, List.countP, List.countP.go, List.filter, List.filterMap]
    rw [h2] at heq
    have := Option.some.inj heq
    have hd := congrArg Report.dist this
    simp only [Option.some.injEq] at hd
    exact congrArg Distribution.fast hd.symm
  exact absurd this (by norm_num)

/-- C3 (amended): on the all-success latencies 100, 300, 700, 1500, 3000 ms the
report shows min=100, max=3000, mean=1120, median=700 and the distribution
`<500ms: 2 (40%)`, `500-2000ms: 2 (40%)`, `≥2000ms: 1 (20%)`; the statistics
are computed over successful latencies only, and the median of an even count
is the average of the two middle values (e.g. 100, 300, 700, 1500 gives 500). -/
theorem generate_report_sample :
    generate_report sampleResults =
      some
        { total := 5, successful := 5, failed := 0
          stats := some { minMs := 100, maxMs := 3000, meanMs := 1120, medianMs := 700 }
          dist := some { fast := 2, medium := 2, slow := 1,
                         fastPct := 40, mediumPct := 40, slowPct := 20 }
          failures := [], file_written := true } ∧
    median [100, 300, 700, 1500] = 500 := by
  constructor
  · norm_num [sampleResults, generate_report, successful_tests, failed_tests,
      response_times, listMin, listMax, mean, median, sortList, insertSorted,
      fast, medium, slow, List.countP, List.countP.go, List.filter, List.filterMap]
  · norm_num [median, sortList, insertSorted]

/-- C4: if every `<url>` child of the sitemap root has a `<loc>` child, parsing
extracts exactly the `<loc>` text of every `<url>` element, in document order
with duplicates preserved, so a document with N such `<url>` entries yields
exactly N URLs; a `<url>` lacking `<loc>` is skipped by the `filterMap`, never
an error. -/
theorem extract_urls_all_locs (root : XmlElem)
    (h : ∀ c ∈ findUrlElems root, (findChild c locTag).isSome) :
    extract_urls root =
      (findUrlElems root).map
        (fun c => XmlElem.text ((findChild c locTag).getD ⟨"", none, []⟩)) ∧
    (extract_urls root).length = (findUrlElems root).length := by
  have H : ∀ c ∈ findUrlElems root,
      (findChild c locTag).map XmlElem.text =
        some (XmlElem.text ((findChild c locTag).getD ⟨"", none, []⟩)) := by
    intro c hc
    cases hfc : findChild c locTag with
    | none =>
        have := h c hc
        rw [hfc] at this
        exact absurd this (by simp)
    | some l => simp [hfc]
  have heq := filterMap_eq_map_of_all_some _ _ _ H
  refine ⟨heq, ?_⟩
  rw [extract_urls] at *
  rw [heq, List.length_map]

/-- A concrete two-entry sitemap document used to witness C4. -/
def sampleSitemap : XmlElem :=
  { tag := sitemapNS ++ "urlset", text := none,
    children :=
      [ { tag := urlTag, text := none,
          children := [{ tag := locTag, text := some "https://e.com/a", children := [] }] },
        { tag := urlTag, text := none,
          children := [{ tag := locTag, text := some "https://e.com/b", children := [] }] } ] }

/-- Witness for C4 on the concrete two-entry sitemap. -/
theorem extract_urls_all_locs_witness :
    extract_urls sampleSitemap =
      (findUrlElems sampleSitemap).map
        (fun c => XmlElem.text ((findChild c locTag).getD ⟨"", none, []⟩)) ∧
    (extract_urls sampleSitemap).length = (findUrlElems sampleSitemap).length :=
  extract_urls_all_locs sampleSitemap (by decide)

/-- C5: `test_single_url` is total over every network-oracle answer (its
`try/except` converts every exception into a result dict, so the embedding
never needs an error monad): whenever the result is not a success it carries a
failure detail, and a `requests.exceptions.Timeout` yields exactly the
Failure result with detail `timeoutMsg` ("请求超时", the code's rendering of
"request timed out") and no latency, no status code. -/
theorem test_single_url_never_raises (net : String → NetOutcome) (url : String) :
    ((test_single_url net url).success = false → (test_single_url net url).error.isSome) ∧
    (net url = NetOutcome.timeout →
      test_single_url net url =
        { url := url, response_time := none, status_code := none,
          success := false, error := some timeoutMsg }) := by
  cases h : net url <;> simp [test_single_url, h]

/-- Witness for C5: a probe whose GET times out. -/
theorem test_single_url_never_raises_witness :
    (test_single_url (fun _ => NetOutcome.timeout) "https://e.com/").error.isSome ∧
    test_single_url (fun _ => NetOutcome.timeout) "https://e.com/" =
      { url := "https://e.com/", response_time := none, status_code := none,
        success := false, error := some timeoutMsg } :=
  ⟨(test_single_url_never_raises (fun _ => NetOutcome.timeout) "https://e.com/").1 rfl,
   (test_single_url_never_raises (fun _ => NetOutcome.timeout) "https://e.com/").2 rfl⟩

/-- C6: whenever the GET completes at the transport level, the result is a
success carrying the server's status code unchanged — any status, 4xx and 5xx
included, since `requests` only raises on transport problems — and the latency
`(end − start) * 1000` milliseconds computed from the two clock readings. -/
theorem test_single_url_transport_success (net : String → NetOutcome) (url : String)
    (status : Nat) (start_t end_t : ℚ)
    (h : net url = NetOutcome.ok status start_t end_t) :
    test_single_url net url =
      { url := url, response_time := some ((end_t - start_t) * 1000),
        status_code := some status, success := true, error := none } := by
  simp [test_single_url, h]

/-- Witness for C6: a server answering HTTP 500 after half a second still
produces a success result with `status_code = 500` and latency 500 ms. -/
theorem test_single_url_transport_success_witness :
    test_single_url (fun _ => NetOutcome.ok 500 2 (5 / 2)) "https://e.com/" =
      { url := "https://e.com/", response_time := some ((5 / 2 - 2) * 1000),
        status_code := some 500, success := true, error := none } :=
  test_single_url_transport_success (fun _ => NetOutcome.ok 500 2 (5 / 2))
    "https://e.com/" 500 2 (5 / 2) rfl

/-- C7: any sitemap fetch or parse failure — network error, non-2xx status, or
malformed XML — is fatal to the run: `parse_sitemap`'s handler prints the error
and returns `[]`, so `run_test` hits the empty-list guard and returns before
the pool is created: no probe is submitted, no result collected, and
`generate_report` (hence the report file) is never reached. -/
theorem fetch_failure_fatal (fo : FetchOutcome) (probe : Option String → TestResult)
    (comp : List (Option String)) (h : ∀ root, fo ≠ FetchOutcome.ok root) :
    run_test fo probe comp =
      { urls := [], probes_run := 0, results := [], report := none } := by
  cases fo with
  | ok root => exact absurd rfl (h root)
  | netErr msg => rfl
  | badStatus code => rfl
  | parseErr msg => rfl

/-- Witness for C7: an unreachable sitemap URL. -/
theorem fetch_failure_fatal_witness :
    run_test (FetchOutcome.netErr "connection refused")
      (fun _ => test_single_url (fun _ => NetOutcome.timeout) "") [] =
      { urls := [], probes_run := 0, results := [], report := none } :=
  fetch_failure_fatal (FetchOutcome.netErr "connection refused")
    (fun _ => test_single_url (fun _ => NetOutcome.timeout) "") []
    (fun _ h => FetchOutcome.noConfusion h)

/-- C9: because `parse_sitemap` answers every failure with `[]` instead of
raising, a transport failure, a non-2xx status, malformed XML and a valid
sitemap with zero `<url>` entries are indistinguishable to `run_test`: in
every one of these cases the run stops with no probe attempted and no report
file written, even for the genuinely empty but valid sitemap. -/
theorem empty_sitemap_indistinguishable_from_failure (root : XmlElem) (msg : String)
    (code : Nat) (probe : Option String → TestResult) (comp : List (Option String))
    (h : findUrlElems root = []) :
    parse_sitemap (FetchOutcome.ok root) = [] ∧
    run_test (FetchOutcome.ok root) probe comp =
      run_test (FetchOutcome.netErr msg) probe comp ∧
    run_test (FetchOutcome.ok root) probe comp =
      run_test (FetchOutcome.badStatus code) probe comp ∧
    run_test (FetchOutcome.ok root) probe comp =
      run_test (FetchOutcome.parseErr msg) probe comp ∧
    run_test (FetchOutcome.ok root) probe comp =
      { urls := [], probes_run := 0, results := [], report := none } := by
  have hx : extract_urls root = [] := by
    rw [extract_urls, h]
    rfl
  have hp : parse_sitemap (FetchOutcome.ok root) = [] := hx
  refine ⟨hp, ?_, ?_, ?_, ?_⟩ <;> simp [run_test, parse_sitemap, hx]

/-- A syntactically valid sitemap document with zero `<url>` entries, used to
witness C9. -/
def emptyUrlset : XmlElem :=
  { tag := sitemapNS ++ "urlset", text := none, children := [] }

/-- Witness for C9: a well-formed `<urlset>` with no `<url>` entry behaves
exactly like a network failure. -/
theorem empty_sitemap_indistinguishable_from_failure_witness :
    parse_sitemap (FetchOutcome.ok emptyUrlset) = [] ∧
    run_test (FetchOutcome.ok emptyUrlset)
        (fun _ => test_single_url (fun _ => NetOutcome.timeout) "") [] =
      run_test (FetchOutcome.netErr "boom")
        (fun _ => test_single_url (fun _ => NetOutcome.timeout) "") [] ∧
    run_test (FetchOutcome.ok emptyUrlset)
        (fun _ => test_single_url (fun _ => NetOutcome.timeout) "") [] =
      run_test (FetchOutcome.badStatus 404)
        (fun _ => test_single_url (fun _ => NetOutcome.timeout) "") [] ∧
    run_test (FetchOutcome.ok emptyUrlset)
        (fun _ => test_single_url (fun _ => NetOutcome.timeout) "") [] =
      run_test (FetchOutcome.parseErr "boom")
        (fun _ => test_single_url (fun _ => NetOutcome.timeout) "") [] ∧
    run_test (FetchOutcome.ok emptyUrlset)
        (fun _ => test_single_url (fun _ => NetOutcome.timeout) "") [] =
      { urls := [], probes_run := 0, results := [], report := none } :=
  empty_sitemap_indistinguishable_from_failure emptyUrlset "boom" 404
    (fun _ => test_single_url (fun _ => NetOutcome.timeout) "") [] rfl

/-- C10: in any report the aggregator produces, the three latency buckets are
disjoint and exhaustive: for every result list whose successful entries all
carry a latency, the three bucket counts of the reported distribution sum to
the reported successful-result count, and the three reported percentages sum
to 100. -/
theorem distribution_partition (results : List TestResult) (rep : Report)
    (d : Distribution)
    (hlat : ∀ r ∈ results, r.success = true → r.response_time.isSome)
    (hrep : generate_report results = some rep) (hd : rep.dist = some d) :
    d.fast + d.medium + d.slow = rep.successful ∧
    d.fastPct + d.mediumPct + d.slowPct = 100 := by
  by_cases he : results.isEmpty
  · rw [generate_report, if_pos he] at hrep
    exact absurd hrep (by simp)
  · rw [generate_report, if_neg he] at hrep
    have hR := Option.some.inj hrep
    subst hR
    by_cases hse : (successful_tests results).isEmpty
    · have hd0 : (none : Option Distribution) = some d := by
        have hx : (if (successful_tests results).isEmpty = true then (none : Option Distribution)
            else some
              { fast := fast (response_times results)
                medium := medium (response_times results)
                slow := slow (response_times results)
                fastPct := (fast (response_times results) : ℚ) /
                  (successful_tests results).length * 100
                mediumPct := (medium (response_times results) : ℚ) /
                  (successful_tests results).length * 100
                slowPct := (slow (response_times results) : ℚ) /
                  (successful_tests results).length * 100 }) = some d := hd
        rwa [if_pos hse] at hx
      exact absurd hd0 (by simp)
    · have hd1 : (if (successful_tests results).isEmpty = true then (none : Option Distribution)
          else some
            { fast := fast (response_times results)
              medium := medium (response_times results)
              slow := slow (response_times results)
              fastPct := (fast (response_times results) : ℚ) /
                (successful_tests results).length * 100
              mediumPct := (medium (response_times results) : ℚ) /
                (successful_tests results).length * 100
              slowPct := (slow (response_times results) : ℚ) /
                (successful_tests results).length * 100 }) = some d := hd
      rw [if_neg hse] at hd1
      have hD := Option.some.inj hd1
      subst hD
      have hlen : (response_times results).length = (successful_tests results).length :=
        response_times_length results hlat
      have hsum : fast (response_times results) + medium (response_times results) +
          slow (response_times results) = (successful_tests results).length :=
        (bucket_counts_sum (response_times results)).trans hlen
      have hne : successful_tests results ≠ [] := by
        intro hnil
        rw [hnil] at hse
        exact hse rfl
      have hn : ((successful_tests results).length : ℚ) ≠ 0 :=
        Nat.cast_ne_zero.mpr (by simpa [List.length_eq_zero] using hne)
      refine ⟨hsum, ?_⟩
      show (fast (response_times results) : ℚ) / (successful_tests results).length * 100 +
          (medium (response_times results) : ℚ) / (successful_tests results).length * 100 +
          (slow (response_times results) : ℚ) / (successful_tests results).length * 100 = 100
      have hq : (fast (response_times results) : ℚ) + medium (response_times results) +
          slow (response_times results) = ((successful_tests results).length : ℚ) := by
        exact_mod_cast congrArg (Nat.cast : Nat → ℚ) hsum
      field_simp
      linarith [hq]

/-- Concrete result set for the C10 witness: two successes (100 ms, 2500 ms)
and one failure. -/
def mixedResults : List TestResult :=
  [ { url := "a", response_time := some 100, status_code := some 200,
      success := true, error := none },
    { url := "b", response_time := none, status_code := none,
      success := false, error := some "boom" },
    { url := "c", response_time := some 2500, status_code := some 200,
      success := true, error := none } ]

/-- The report `generate_report` produces on `mixedResults`. -/
def mixedReport : Report :=
  { total := 3, successful := 2, failed := 1
    stats := some { minMs := 100, maxMs := 2500, meanMs := 1300, medianMs := 1300 }
    dist := some { fast := 1, medium := 0, slow := 1,
                   fastPct := 50, mediumPct := 0, slowPct := 50 }
    failures := [("b", some "boom")], file_written := true }

/-- The distribution block of `mixedReport`. -/
def mixedDist : Distribution :=
  { fast := 1, medium := 0, slow := 1, fastPct := 50, mediumPct := 0, slowPct := 50 }

/-- Witness for C10 on `mixedResults`: 1 + 0 + 1 = 2 successes and
50% + 0% + 50% = 100%. -/
theorem distribution_partition_witness :
    mixedDist.fast + mixedDist.medium + mixedDist.slow = mixedReport.successful ∧
    mixedDist.fastPct + mixedDist.mediumPct + mixedDist.slowPct = 100 :=
  distribution_partition mixedResults mixedReport mixedDist
    (by decide)
    (by norm_num [mixedResults, mixedReport, mixedDist, generate_report,
      successful_tests, failed_tests, response_times, listMin, listMax, mean,
      median, sortList, insertSorted, fast, medium, slow, List.countP,
      List.countP.go, List.filter, List.filterMap])
    rfl

end SitemapTester
